import Mathlib

/-!
Verification development for the SehatSaarthi WhatsApp chatbot repository.

The definitions below are a shallow embedding of the Python source:
  * `src/app/utils/whatsapp_utils.py` — message dispatch, validation,
    text formatting, transport;
  * `src/app.py` — the webhook verification endpoint.

Python JSON values are modelled by the inductive `Json`; Python dictionary
access (`d.get(k)`, `d[k]`, `x[0]`) is modelled by `Except`-returning
operations that mirror Python's exception behaviour (AttributeError on
`.get` of a non-dict, KeyError / IndexError / TypeError on subscripts).
External HTTP / AI calls are oracles supplied through an `Env` record, and
each call made by the dispatch pipeline is recorded in an event trace.
Machine-level concerns (actual sockets, PDF bytes) are abstracted to the
data the claims observe.
-/

/-- Python exceptions relevant to the embedded code. `oracle` carries the
string of an exception raised inside an external call (requests, genai,
reportlab, ...). -/
inductive PyErr where
  | keyError (k : String)
  | indexError
  | typeError
  | attributeError
  | oracle (msg : String)
  deriving DecidableEq, Repr

/-- `str(e)` for the exceptions we model; only used to build the error
message f-strings, no claim depends on its exact shape. -/
def PyErr.toMsg : PyErr → String
  | .keyError k => "KeyError: " ++ k
  | .indexError => "list index out of range"
  | .typeError => "TypeError"
  | .attributeError => "AttributeError"
  | .oracle m => m

/-- Parsed JSON values (the result of `request.get_json()`). Python dicts
coming from JSON have string keys in insertion order. -/
inductive Json where
  | null
  | bool (b : Bool)
  | num (n : Int)
  | str (s : String)
  | arr (xs : List Json)
  | obj (kvs : List (String × Json))

/-- Key lookup in a JSON object, first binding wins. -/
def lookupKey : List (String × Json) → String → Option Json
  | [], _ => none
  | (k, v) :: rest, key => if k = key then some v else lookupKey rest key

/-- Python truthiness of a JSON value (`if not x`): `None`, `False`, `0`,
`""`, `[]` and an empty dict are falsy. -/
def Json.truthy : Json → Bool
  | .null => false
  | .bool b => b
  | .num n => n != 0
  | .str s => s != ""
  | .arr xs => !xs.isEmpty
  | .obj kvs => !kvs.isEmpty

/-- `x.get(key)`: returns `None` when the key is missing, raises
AttributeError when `x` is not a dict. -/
def Json.get : Json → String → Except PyErr Json
  | .obj kvs, key => .ok ((lookupKey kvs key).getD .null)
  | _, _ => .error .attributeError

/-- `x[key]` for a string key: KeyError when missing, TypeError when `x`
is not a dict (string/list indices must be integers). -/
def Json.subStr : Json → String → Except PyErr Json
  | .obj kvs, key =>
      match lookupKey kvs key with
      | some v => .ok v
      | none => .error (.keyError key)
  | _, _ => .error .typeError

/-- `x[0]`: head of a list, first character of a string (as a 1-character
string), KeyError for a dict (JSON dicts have no integer keys), TypeError
otherwise. -/
def Json.sub0 : Json → Except PyErr Json
  | .arr xs =>
      match xs with
      | x :: _ => .ok x
      | [] => .error .indexError
  | .str s =>
      match s.toList with
      | c :: _ => .ok (.str (String.mk [c]))
      | [] => .error .indexError
  | .obj _ => .error (.keyError "0")
  | _ => .error .typeError

/-- Total navigation used by the specification-level shape predicate:
`x.get(key)` reading a missing key / non-dict as `None`. -/
def jattr (j : Json) (key : String) : Json :=
  match j with
  | .obj kvs => (lookupKey kvs key).getD .null
  | _ => .null

/-- Python `==` between a JSON value and a string literal: true exactly
for the equal string. -/
def Json.eqStr : Json → String → Bool
  | .str s, t => s = t
  | _, _ => false

/-- Total navigation: `x[0]` reading any failure as `None`. -/
def jidx0 (j : Json) : Json :=
  match j with
  | .arr xs =>
      match xs with
      | x :: _ => x
      | [] => .null
  | .str s =>
      match s.toList with
      | c :: _ => .str (String.mk [c])
      | [] => .null
  | _ => .null

/-! ## Python string helpers (`.strip()`, `.lower()`)

`str.strip()` removes leading and trailing whitespace; we model the ASCII
whitespace set, which covers every string the program manipulates.
`str.lower()` is modelled as ASCII lowercasing. -/

def pyIsSpace (c : Char) : Bool :=
  c = ' ' || c = '\t' || c = '\n' || c = '\r' || c = '\x0b' || c = '\x0c'

def pyStripList (l : List Char) : List Char :=
  ((l.dropWhile pyIsSpace).reverse.dropWhile pyIsSpace).reverse

def pyStrip (s : String) : String := String.mk (pyStripList s.toList)

def pyLower (s : String) : String := String.mk (s.toList.map Char.toLower)

/-! ## `process_text_for_whatsapp` (whatsapp_utils.py lines 151-166)

Two `re.sub` passes:
  1. `re.sub(r"\【.*?\】", "", text).strip()` — remove bracket spans;
     `.` does not match a newline and `.*?` is lazy, so a removed span runs
     from a `【` to the first following `】` with no newline in between.
  2. `re.sub(r"\*\*(.*?)\*\*", r"*\1*", text)` — rewrite the shortest
     `**group**` to `*group*`; the group cannot contain a newline.
Both passes scan left to right and, on a failed match attempt, advance by
one character, exactly as the `re` engine does for these patterns. -/

/-- Scan for the closing `】` of pattern `\【.*?\】`: returns the suffix
after the first `】`, or `none` if a newline or the end of the string is
reached first. -/
def findBracketClose : List Char → Option (List Char)
  | [] => none
  | c :: rest =>
      if c = '】' then some rest
      else if c = '\n' then none
      else findBracketClose rest

/-- Termination measure bound for the bracket scan (a proof term used by
the `decreasing_by` of `removeBrackets`). -/
def findBracketClose_length :
    ∀ l r, findBracketClose l = some r → r.length < l.length := by
  intro l
  induction l with
  | nil => intro r h; simp [findBracketClose] at h
  | cons c rest ih =>
      intro r h
      simp only [findBracketClose] at h
      split at h
      · injection h with h
        subst h
        simp only [List.length_cons]
        omega
      · split at h
        · exact absurd h (by simp)
        · have := ih r h
          simp only [List.length_cons]
          omega

/-- First `re.sub` pass: remove every match of `\【.*?\】`. -/
def removeBrackets : List Char → List Char
  | [] => []
  | c :: rest =>
      if c = '【' then
        match h : findBracketClose rest with
        | some rest2 => removeBrackets rest2
        | none => c :: removeBrackets rest
      else c :: removeBrackets rest
termination_by l => l.length
decreasing_by
  all_goals simp only [List.length_cons]
  all_goals try have := findBracketClose_length rest rest2 h
  all_goals omega

/-- Scan for the closing `\*\*` of pattern `\*\*(.*?)\*\*`: returns the
lazily-matched group and the suffix after the closing pair, or `none` if a
newline or the end is reached before an adjacent pair of asterisks. -/
def findDoubleStar : List Char → Option (List Char × List Char)
  | [] => none
  | [_] => none
  | a :: b :: rest =>
      if a = '*' ∧ b = '*' then some ([], rest)
      else if a = '\n' then none
      else
        match findDoubleStar (b :: rest) with
        | some (g, r) => some (a :: g, r)
        | none => none

/-- Termination measure bound for the double-asterisk scan (a proof term
used by the `decreasing_by` of `boldToSingle`). -/
def findDoubleStar_length :
    ∀ l g r, findDoubleStar l = some (g, r) → r.length + 2 ≤ l.length := by
  intro l
  induction l with
  | nil => intro g r h; simp [findDoubleStar] at h
  | cons a tail ih =>
      intro g r h
      match tail with
      | [] => simp [findDoubleStar] at h
      | b :: rest =>
          simp only [findDoubleStar] at h
          split at h
          · injection h with h
            rw [Prod.mk.injEq] at h
            rw [← h.2]
            simp only [List.length_cons]
            omega
          · split at h
            · exact absurd h (by simp)
            · split at h
              · rename_i g2 r2 h2
                injection h with h
                rw [Prod.mk.injEq] at h
                have := ih g2 r2 h2
                rw [← h.2]
                simp only [List.length_cons] at this ⊢
                omega
              · exact absurd h (by simp)

/-- Second `re.sub` pass: rewrite every match of `\*\*(.*?)\*\*` to
`*group*`. -/
def boldToSingle : List Char → List Char
  | [] => []
  | [c] => [c]
  | a :: b :: rest =>
      if a = '*' ∧ b = '*' then
        match h : findDoubleStar rest with
        | some (g, rest2) => '*' :: (g ++ '*' :: boldToSingle rest2)
        | none => a :: boldToSingle (b :: rest)
      else a :: boldToSingle (b :: rest)
termination_by l => l.length
decreasing_by
  all_goals simp only [List.length_cons]
  all_goals try have := findDoubleStar_length rest g rest2 h
  all_goals omega

/-- `process_text_for_whatsapp` (lines 151-166): bracket-span removal,
then `.strip()`, then double-asterisk rewriting. -/
def process_text_for_whatsapp (s : String) : String :=
  String.mk (boldToSingle (pyStripList (removeBrackets s.toList)))

/-! ## Webhook verification endpoint (`app.py` lines 66-75)

`request.args.get` yields `None` for a missing query parameter, modelled by
`Option String`. The function is pure: it reads nothing but its arguments
and returns a `(body, status)` pair, so the spec's "no side effects"
holds by construction. -/

def VERIFY_TOKEN : String := "my_secret_token"

def verify (mode token challenge : Option String) : Option String × Nat :=
  if mode = some "subscribe" ∧ token = some VERIFY_TOKEN then (challenge, 200)
  else (some "Verification failed", 403)

/-! ## `translate_to_english` (whatsapp_utils.py lines 79-101)

The truthiness of `current_app.config.get("GEMINI_API_KEY")` is the
boolean `geminiKeyConfigured`; the client construction plus
`generate_content` call is the oracle `apiCall`, returning either the
model's response text or the string of a raised exception. -/

def translate_to_english (geminiKeyConfigured : Bool)
    (apiCall : Except String String) (text : String) : String :=
  if !geminiKeyConfigured then
    "Translation failed: Gemini API key is not configured. Original text: " ++ text
  else
    match apiCall with
    | .ok responseText => responseText
    | .error e => "Sorry, I couldn\x27t translate your message: " ++ text ++ ". Error: " ++ e

/-! ## Outbound message payloads (whatsapp_utils.py lines 23-53)

`get_text_message_input` / `get_document_message_input` build JSON strings
via `json.dumps`; the payload is modelled structurally, keeping exactly the
fields that vary (recipient, text body, document id, caption). -/

inductive Payload where
  | text (recipient : Json) (body : String)
  | document (recipient : Json) (documentId : String) (caption : Option String)

def get_text_message_input (recipient : Json) (text : String) : Payload :=
  .text recipient text

/-- `get_document_message_input`: the caption key is added only when the
caption argument is truthy (`if caption:`). -/
def get_document_message_input (recipient : Json) (documentId : String)
    (caption : Option String) : Payload :=
  .document recipient documentId
    (match caption with
     | some c => if c = "" then none else some c
     | none => none)

/-! ## `send_message` (whatsapp_utils.py lines 104-148) -/

structure HttpResponse where
  status_code : Nat
  text : String

structure WhatsAppConfig where
  access_token : String
  version : String
  phone_number_id : String

/-- The single HTTP request `requests.post` is invoked with. -/
structure RequestSpec where
  url : String
  contentType : String
  authHeader : String
  body : Payload
  timeoutSeconds : Nat

/-- Outcome of the one `requests.post` attempt: a response whose
`raise_for_status()` passes, a `requests.Timeout`, a `requests.HTTPError`
raised by `raise_for_status()` (carrying `str(e)` and `e.response`), or any
other `requests.RequestException` (carrying `str(e)`). -/
inductive HttpOutcome where
  | success (resp : HttpResponse)
  | timeout
  | httpError (errStr : String) (resp : HttpResponse)
  | requestError (errStr : String)

/-- Return value of `send_message`: the raw response on success, otherwise
the `(jsonify({"status": ..., "message": ...}), code)` tuple. -/
inductive SendRes where
  | response (r : HttpResponse)
  | errorTuple (status message : String) (code : Nat)

/-- The request `send_message` builds (lines 107-122): Graph API messages
URL, JSON content type, bearer-token auth header, the payload, and a
10-second timeout. -/
def send_request (cfg : WhatsAppConfig) (data : Payload) : RequestSpec :=
  { url := "https://graph.facebook.com/" ++ cfg.version ++ "/"
             ++ cfg.phone_number_id ++ "/messages"
    contentType := "application/json"
    authHeader := "Bearer " ++ cfg.access_token
    body := data
    timeoutSeconds := 10 }

/-- `send_message` (lines 104-148): builds the request, consults the
transport once, and maps each exception class to an error tuple. Total: it
never raises. -/
def send_message (cfg : WhatsAppConfig) (transport : RequestSpec → HttpOutcome)
    (data : Payload) : SendRes :=
  match transport (send_request cfg data) with
  | .success r => .response r
  | .timeout => .errorTuple "error" "Timeout occurred while sending message" 408
  | .httpError e r =>
      .errorTuple "error" ("HTTP error occurred: " ++ e ++ ", Response: " ++ r.text)
        r.status_code
  | .requestError _ => .errorTuple "error" "Failed to send message" 500

/-! ## `process_whatsapp_message` (whatsapp_utils.py lines 295-396)

External calls are oracles in `Env`; every call the pipeline makes is
recorded in an event trace, in program order. `send` never raises (the
embedded `send_message` catches every `requests` exception and returns a
value); the remaining oracles may raise, which `Except` models.
`generate_pdf_from_text` together with the `extract_patient_name` it is fed
(pure in-process computations whose output no claim observes beyond the
upload) is abstracted into the `genPdf` oracle on the translated text. -/

inductive Event where
  | sendMsg (payload : Payload)
  | translate (text : String)
  | getMediaUrl (mediaId : Json)
  | downloadMedia (url : String)
  | transcribe (audio : String)
  | uploadMedia (file : String)

structure Env where
  send : Payload → SendRes
  translate : String → Except PyErr String
  getMediaUrl : Json → Except PyErr String
  downloadMedia : String → Except PyErr String
  transcribe : String → Except PyErr String
  genPdf : String → Except PyErr String
  uploadMedia : String → Except PyErr String

/-- `body["entry"][0]["changes"][0]["value"]` (line 299 and following). -/
def nav_value (body : Json) : Except PyErr Json := do
  let entry ← body.subStr "entry"
  let entry0 ← entry.sub0
  let changes ← entry0.subStr "changes"
  let changes0 ← changes.sub0
  changes0.subStr "value"

/-- Line 299: `...["value"]["contacts"][0]["wa_id"]`. -/
def extract_wa_id (body : Json) : Except PyErr Json := do
  let v ← nav_value body
  let contacts ← v.subStr "contacts"
  let contacts0 ← contacts.sub0
  contacts0.subStr "wa_id"

/-- Line 302: `...["value"]["contacts"][0]["profile"]["name"]`. -/
def extract_profile_name (body : Json) : Except PyErr Json := do
  let v ← nav_value body
  let contacts ← v.subStr "contacts"
  let contacts0 ← contacts.sub0
  let profile ← contacts0.subStr "profile"
  profile.subStr "name"

/-- Line 305: `...["value"]["messages"][0]`. -/
def extract_first_message (body : Json) : Except PyErr Json := do
  let v ← nav_value body
  let messages ← v.subStr "messages"
  messages.sub0

/-- `.strip()` on a non-string raises AttributeError; the message body is
used as a string immediately after extraction (line 317). -/
def asPyStr : Json → Except PyErr String
  | .str s => .ok s
  | _ => .error .attributeError

/-- Line 314: `message["text"]["body"]`, used as a string. -/
def message_text_body (message : Json) : Except PyErr String := do
  let t ← message.subStr "text"
  let b ← t.subStr "body"
  asPyStr b

/-- Line 351: `message["audio"]["id"]`. -/
def message_audio_id (message : Json) : Except PyErr Json := do
  let a ← message.subStr "audio"
  a.subStr "id"

/-- The body of the `try:` block of `process_whatsapp_message`
(lines 298-381), with its event trace. A `.error` is an exception
reaching the `except Exception` handler. -/
def dispatchTry (env : Env) (body : Json) : Except PyErr SendRes × List Event :=
  match extract_wa_id body with
  | .error e => (.error e, [])
  | .ok wa_id =>
  match extract_profile_name body with
  | .error e => (.error e, [])
  | .ok _name =>
  match extract_first_message body with
  | .error e => (.error e, [])
  | .ok message =>
  match message.get "type" with
  | .error e => (.error e, [])
  | .ok message_type =>
  -- lines 310-311: acknowledgment send; its result is discarded
  let ackData := get_text_message_input wa_id "Processing your request. Please wait..."
  let ev0 : List Event := [.sendMsg ackData]
  if message_type.eqStr "text" then
    -- lines 313-347
    (match message_text_body message with
    | .error e => (.error e, ev0)
    | .ok message_body =>
      if pyLower (pyStrip message_body) = "hi" then
        let p := get_text_message_input wa_id
          "Hi, this is Sehat Saarthi. How can I help you today?"
        (.ok (env.send p), ev0 ++ [.sendMsg p])
      else
        let ev1 := ev0 ++ [Event.translate message_body]
        match env.translate message_body with
        | .error e => (.error e, ev1)
        | .ok translated_text =>
        match env.genPdf translated_text with
        | .error e => (.error e, ev1)
        | .ok pdf_data =>
        let ev2 := ev1 ++ [Event.uploadMedia pdf_data]
        match env.uploadMedia pdf_data with
        | .error e => (.error e, ev2)
        | .ok media_id =>
        let p := get_document_message_input wa_id media_id
          (some "Your medical report is ready.")
        (.ok (env.send p), ev2 ++ [.sendMsg p]))
  else if message_type.eqStr "audio" then
    -- lines 349-377
    (match message_audio_id message with
    | .error e => (.error e, ev0)
    | .ok audio_id =>
    let ev1 := ev0 ++ [Event.getMediaUrl audio_id]
    match env.getMediaUrl audio_id with
    | .error e => (.error e, ev1)
    | .ok audio_url =>
    let ev2 := ev1 ++ [Event.downloadMedia audio_url]
    match env.downloadMedia audio_url with
    | .error e => (.error e, ev2)
    | .ok audio_data =>
    let ev3 := ev2 ++ [Event.transcribe audio_data]
    match env.transcribe audio_data with
    | .error e => (.error e, ev3)
    | .ok transcript =>
    let ev4 := ev3 ++ [Event.translate transcript]
    match env.translate transcript with
    | .error e => (.error e, ev4)
    | .ok translated_transcript =>
    match env.genPdf translated_transcript with
    | .error e => (.error e, ev4)
    | .ok pdf_data =>
    let ev5 := ev4 ++ [Event.uploadMedia pdf_data]
    match env.uploadMedia pdf_data with
    | .error e => (.error e, ev5)
    | .ok media_id =>
    let p := get_document_message_input wa_id media_id
      (some "Your audio message has been transcribed and translated")
    (.ok (env.send p), ev5 ++ [.sendMsg p]))
  else
    -- lines 378-381
    let p := get_text_message_input wa_id "I can only understand text or voice notes."
    (.ok (env.send p), ev0 ++ [.sendMsg p])

/-- Return value of `process_whatsapp_message`: either the value of the
final `send_message` call, or the `(jsonify(error), 500)` tuple built by
the `except Exception` handler. There is no constructor for an escaping
exception: the handler catches everything. -/
inductive ProcResult where
  | fromSend (r : SendRes)
  | errorResult (message : String) (code : Nat)

/-- `process_whatsapp_message` (lines 295-396). On an exception, the
handler checks `'wa_id' in locals()` — equivalent to the (pure) wa_id
extraction having succeeded — and if so sends a generic failure notice,
then returns the error tuple. -/
def process_whatsapp_message (env : Env) (body : Json) : ProcResult × List Event :=
  match dispatchTry env body with
  | (.ok r, evs) => (.fromSend r, evs)
  | (.error e, evs) =>
      let error_msg := "Error processing WhatsApp message: " ++ e.toMsg
      match extract_wa_id body with
      | .ok wa_id =>
          let errData := get_text_message_input wa_id
            "Sorry, there was an error processing your request. Please try again later."
          (.errorResult error_msg 500, evs ++ [.sendMsg errData])
      | .error _ => (.errorResult error_msg 500, evs)

/-! ## `is_valid_whatsapp_message` (whatsapp_utils.py lines 399-433)

Each check is translated in source order. Repeated navigation expressions
(`body["entry"][0]`, ...) are pure, so they are computed once and reused;
a subscript re-access after a successful truthy `.get` of the same key
yields the same value. -/

def is_valid_whatsapp_message (body : Json) : Except PyErr Bool :=
  match body.get "object" with
  | .error e => .error e
  | .ok objectField =>
  if !objectField.truthy then .ok false else
  match body.get "entry" with
  | .error e => .error e
  | .ok entryField =>
  if !entryField.truthy then .ok false else
  match (body.subStr "entry").bind Json.sub0 with
  | .error e => .error e
  | .ok entry0 =>
  match entry0.get "changes" with
  | .error e => .error e
  | .ok changesField =>
  if !changesField.truthy then .ok false else
  match (entry0.subStr "changes").bind Json.sub0 with
  | .error e => .error e
  | .ok changes0 =>
  match changes0.get "value" with
  | .error e => .error e
  | .ok valueField =>
  if !valueField.truthy then .ok false else
  match (changes0.subStr "value").bind (fun v => v.get "messages") with
  | .error e => .error e
  | .ok messagesField =>
  if !messagesField.truthy then .ok false else
  match (changes0.subStr "value").bind
      (fun v => (v.subStr "messages").bind Json.sub0) with
  | .error e => .error e
  | .ok message0 =>
  .ok message0.truthy

/-- The payload shape `is_valid_whatsapp_message` accepts, written as one
total navigation following the spec's description of the validator
("non-empty entry, changes, value, messages chain", plus the top-level
object field): failed navigation reads as `None`, and the validator
answers `True` exactly when every station of the chain is truthy. -/
def validShape (body : Json) : Bool :=
  let objectField := jattr body "object"
  let entryField := jattr body "entry"
  let entry0 := jidx0 entryField
  let changesField := jattr entry0 "changes"
  let changes0 := jidx0 changesField
  let valueField := jattr changes0 "value"
  let messagesField := jattr valueField "messages"
  let message0 := jidx0 messagesField
  objectField.truthy && entryField.truthy && changesField.truthy
    && valueField.truthy && messagesField.truthy && message0.truthy

/-! ## Observables used by the claim statements -/

/-- Is this event an outbound `send_message` call? -/
def Event.isSend : Event → Bool
  | .sendMsg _ => true
  | _ => false

/-- Is this event a call to the translation adapter? -/
def Event.isTranslate : Event → Bool
  | .translate _ => true
  | _ => false

/-- Number of translation-adapter calls in a trace. -/
def countTranslates (evs : List Event) : Nat :=
  (evs.filter Event.isTranslate).length

/-- `true` iff no `send_message` call occurs before the first
translation-adapter call (scanning the trace in program order). -/
def noSendBeforeTranslate : List Event → Bool
  | [] => true
  | e :: rest =>
      if e.isSend then false
      else if e.isTranslate then true
      else noSendBeforeTranslate rest

/-- Two adjacent asterisks somewhere in the character list (a
double-asterisk sequence in the sense of the spec). -/
def hasDoubleStar : List Char → Bool
  | [] => false
  | [_] => false
  | a :: b :: rest => (a = '*' && b = '*') || hasDoubleStar (b :: rest)

/-- A match of the annotation pattern `\【.*?\】` exists somewhere in the
character list: an opening `【` from which a closing `】` is reachable
without crossing a newline. -/
def hasBracketSpan : List Char → Bool
  | [] => false
  | c :: rest => (c = '【' && (findBracketClose rest).isSome) || hasBracketSpan rest

/-- A fully well-formed entry/changes/value/messages chain with no
top-level `object` key (used to exercise the validator's object check). -/
def chainKvsNoObject : List (String × Json) :=
  [("entry", Json.arr [Json.obj [("changes", Json.arr [Json.obj [("value",
    Json.obj [("messages", Json.arr [Json.obj [("type", Json.str "text")]])])]])]])]

/-- A complete inbound payload whose single message is a text message with
the given body. -/
def textMessagePayload (bodyText : String) : Json :=
  Json.obj [("object", Json.str "whatsapp_business_account"),
    ("entry", Json.arr [Json.obj [("id", Json.str "0"),
      ("changes", Json.arr [Json.obj [("value", Json.obj [
        ("contacts", Json.arr [Json.obj [("wa_id", Json.str "15551234567"),
          ("profile", Json.obj [("name", Json.str "Test User")])]]),
        ("messages", Json.arr [Json.obj [("type", Json.str "text"),
          ("text", Json.obj [("body", Json.str bodyText)])]])])]])]])]

/-- An environment whose oracles all succeed with fixed values. -/
def okEnv : Env where
  send := fun _ => .response { status_code := 200, text := "ok" }
  translate := fun _ => .ok "TRANSLATED"
  getMediaUrl := fun _ => .ok "http://media"
  downloadMedia := fun _ => .ok "AUDIOBYTES"
  transcribe := fun _ => .ok "TRANSCRIPT"
  genPdf := fun _ => .ok "PDFBYTES"
  uploadMedia := fun _ => .ok "media-id-1"

/-- `okEnv` with a translation adapter that raises. -/
def translateFailEnv : Env :=
  { okEnv with translate := fun _ => .error (.oracle "boom") }

/-! ## Claim theorems -/

/-- C3: for all values of the query parameters `mode`, `token`,
`challenge` (each possibly absent), the verification endpoint returns the
challenge value with status 200 if and only if `mode` is `"subscribe"`
and `token` equals the pre-shared verify token; in every other case it
returns the fixed failure body with status 403. `verify` is a pure
function of its query parameters, so it has no side effects. -/
theorem C3_verify_iff (mode token challenge : Option String) :
    (((verify mode token challenge).2 = 200
        ∧ (verify mode token challenge).1 = challenge)
      ↔ (mode = some "subscribe" ∧ token = some VERIFY_TOKEN))
    ∧ (¬(mode = some "subscribe" ∧ token = some VERIFY_TOKEN) →
        verify mode token challenge = (some "Verification failed", 403)) := by
  unfold verify
  by_cases h : mode = some "subscribe" ∧ token = some VERIFY_TOKEN
  · simp [h]
  · simp [h]

/-- C3 witness: the iff and the failure clause evaluated at concrete
parameters. -/
theorem C3_verify_iff_witness :
    (verify (some "subscribe") (some "my_secret_token") (some "ch-1")).2 = 200
    ∧ verify (some "subscribe") (some "wrong") (some "ch-1")
        = (some "Verification failed", 403) :=
  ⟨((C3_verify_iff (some "subscribe") (some "my_secret_token") (some "ch-1")).1.mpr
      ⟨rfl, rfl⟩).1,
   (C3_verify_iff (some "subscribe") (some "wrong") (some "ch-1")).2
      (by intro h; exact absurd h.2 (by decide))⟩

/-- C6: `send_message` posts the payload to the Graph messages URL with
bearer-token auth and a 10-second timeout; it consults the transport for
exactly one attempt (the result depends only on the outcome of that single
request, so there is no retry); on success it returns the raw response,
on timeout a 408 error tuple, on an HTTP error an error tuple carrying the
upstream status code and a message containing the upstream body, and on
any other transport error a generic 500 error tuple. It is a total
function into `SendRes`: it never raises. -/
theorem C6_send_message (cfg : WhatsAppConfig)
    (transport : RequestSpec → HttpOutcome) (data : Payload) :
    (send_request cfg data).timeoutSeconds = 10
    ∧ (send_request cfg data).authHeader = "Bearer " ++ cfg.access_token
    ∧ (send_request cfg data).url = "https://graph.facebook.com/" ++ cfg.version
        ++ "/" ++ cfg.phone_number_id ++ "/messages"
    ∧ (send_request cfg data).body = data
    ∧ (∀ transport2 : RequestSpec → HttpOutcome,
        transport2 (send_request cfg data) = transport (send_request cfg data) →
        send_message cfg transport2 data = send_message cfg transport data)
    ∧ (match transport (send_request cfg data) with
       | .success r => send_message cfg transport data = .response r
       | .timeout => send_message cfg transport data
           = .errorTuple "error" "Timeout occurred while sending message" 408
       | .httpError e r => send_message cfg transport data
           = .errorTuple "error"
               ("HTTP error occurred: " ++ e ++ ", Response: " ++ r.text)
               r.status_code
       | .requestError _ => send_message cfg transport data
           = .errorTuple "error" "Failed to send message" 500) := by
  refine ⟨rfl, rfl, rfl, rfl, ?_, ?_⟩
  · intro t2 h
    unfold send_message
    rw [h]
  · cases htr : transport (send_request cfg data) <;> simp [send_message, htr]

/-- C6 witness: the single-attempt clause applied at a concrete
configuration, transport and payload. -/
theorem C6_send_message_witness :
    send_message
      { access_token := "tok"
        version := "v20.0"
        phone_number_id := "123" }
      (fun _ => HttpOutcome.timeout) (Payload.text (Json.str "1555") "hello")
      = SendRes.errorTuple "error" "Timeout occurred while sending message" 408 := by
  have h := C6_send_message
    { access_token := "tok"
      version := "v20.0"
      phone_number_id := "123" }
    (fun _ => HttpOutcome.timeout) (Payload.text (Json.str "1555") "hello")
  exact h.2.2.2.2.2

/-- C8: `translate_to_english` returns the model's response text verbatim
when the key is configured and the call succeeds; when the API key is
absent (falsy in the config) or the call raises, it returns an
explanatory fallback string that embeds the original text, and in
particular it returns in every case rather than raising. -/
theorem C8_translate_fallbacks (text : String) :
    (∀ responseText,
      translate_to_english true (Except.ok responseText) text = responseText)
    ∧ (∀ apiCall, translate_to_english false apiCall text =
        "Translation failed: Gemini API key is not configured. Original text: "
          ++ text)
    ∧ (∀ e, translate_to_english true (Except.error e) text =
        "Sorry, I couldn\x27t translate your message: " ++ text
          ++ ". Error: " ++ e) :=
  ⟨fun _ => rfl, fun _ => rfl, fun _ => rfl⟩

/-- C10: the validator answers `False` for any dictionary payload whose
top-level `object` field is absent or falsy, regardless of the rest of the
payload. -/
theorem C10_validator_requires_object (kvs : List (String × Json))
    (h : (jattr (Json.obj kvs) "object").truthy = false) :
    is_valid_whatsapp_message (Json.obj kvs) = .ok false := by
  unfold is_valid_whatsapp_message
  simp only [Json.get]
  have hj : jattr (Json.obj kvs) "object" = (lookupKey kvs "object").getD .null := rfl
  rw [hj] at h
  simp [h]

/-- C10 witness: a payload with a fully well-formed
entry/changes/value/messages chain but no `object` key is rejected. -/
theorem C10_validator_requires_object_witness :
    (jattr (Json.obj chainKvsNoObject) "object").truthy = false
    ∧ is_valid_whatsapp_message (Json.obj chainKvsNoObject) = .ok false :=
  ⟨rfl, C10_validator_requires_object chainKvsNoObject rfl⟩

/-- C1: for every inbound payload from which the sender id, profile name
and first message are extractable (the spec's inbound data model), if the
first message has type `"text"` and its body equals `"hi"` after trimming
and lowercasing, then `process_whatsapp_message` sends the fixed greeting
(after the unconditional acknowledgment send), returns that send's result,
and never invokes the translation adapter: the full trace is exactly the
two sends, with zero translate events. -/
theorem C1_hi_fixed_greeting (env : Env) (body wa nm msg : Json) (b : String)
    (hwa : extract_wa_id body = .ok wa)
    (hname : extract_profile_name body = .ok nm)
    (hmsg : extract_first_message body = .ok msg)
    (htype : msg.get "type" = .ok (Json.str "text"))
    (hbody : message_text_body msg = .ok b)
    (hhi : pyLower (pyStrip b) = "hi") :
    process_whatsapp_message env body =
      (.fromSend (env.send (Payload.text wa
          "Hi, this is Sehat Saarthi. How can I help you today?")),
       [.sendMsg (Payload.text wa "Processing your request. Please wait..."),
        .sendMsg (Payload.text wa
          "Hi, this is Sehat Saarthi. How can I help you today?")])
    ∧ countTranslates (process_whatsapp_message env body).2 = 0 := by
  have hd : dispatchTry env body =
      (.ok (env.send (Payload.text wa
          "Hi, this is Sehat Saarthi. How can I help you today?")),
       [.sendMsg (Payload.text wa "Processing your request. Please wait..."),
        .sendMsg (Payload.text wa
          "Hi, this is Sehat Saarthi. How can I help you today?")]) := by
    unfold dispatchTry
    simp only [hwa, hname, hmsg, htype, hbody, hhi, Json.eqStr, if_pos]
    rfl
  constructor
  · unfold process_whatsapp_message
    rw [hd]
  · unfold process_whatsapp_message
    rw [hd]
    rfl

/-- C1 witness: the theorem applied to a complete concrete payload whose
text body is `" Hi "`. -/
theorem C1_hi_fixed_greeting_witness :
    process_whatsapp_message okEnv (textMessagePayload " Hi ") =
      (.fromSend (okEnv.send (Payload.text (Json.str "15551234567")
          "Hi, this is Sehat Saarthi. How can I help you today?")),
       [.sendMsg (Payload.text (Json.str "15551234567")
          "Processing your request. Please wait..."),
        .sendMsg (Payload.text (Json.str "15551234567")
          "Hi, this is Sehat Saarthi. How can I help you today?")])
    ∧ countTranslates
        (process_whatsapp_message okEnv (textMessagePayload " Hi ")).2 = 0 :=
  C1_hi_fixed_greeting okEnv (textMessagePayload " Hi ")
    (Json.str "15551234567") (Json.str "Test User")
    (Json.obj [("type", Json.str "text"),
      ("text", Json.obj [("body", Json.str " Hi ")])])
    " Hi " rfl rfl rfl rfl rfl (by decide)

/-- C5: any exception raised inside the dispatch body is caught by the
top-level handler of `process_whatsapp_message` and never propagates: the
function is total into `ProcResult` (which has no "raised" alternative),
and whenever the dispatch body ends in an exception `e` the result is the
500 error tuple built from `e`; when the recipient id was extracted
(`'wa_id' in locals()`), the generic explanatory failure message is
additionally sent to that recipient, otherwise nothing more is sent. -/
theorem C5_exceptions_caught (env : Env) (body : Json) (e : PyErr)
    (evs : List Event) (herr : dispatchTry env body = (.error e, evs)) :
    (process_whatsapp_message env body).1
        = .errorResult ("Error processing WhatsApp message: " ++ e.toMsg) 500
    ∧ (∀ wa, extract_wa_id body = .ok wa →
        (process_whatsapp_message env body).2 = evs ++ [.sendMsg (Payload.text wa
          "Sorry, there was an error processing your request. Please try again later.")])
    ∧ (∀ e2, extract_wa_id body = .error e2 →
        (process_whatsapp_message env body).2 = evs) := by
  refine ⟨?_, ?_, ?_⟩
  · unfold process_whatsapp_message
    rw [herr]
    cases hwa : extract_wa_id body <;> rfl
  · intro wa hwa
    unfold process_whatsapp_message
    rw [herr, hwa]
    rfl
  · intro e2 hwa
    unfold process_whatsapp_message
    rw [herr, hwa]

/-- C5 witness: a translation-adapter failure on a concrete payload is
caught, the failure notice is sent, and the 500 error tuple is returned. -/
theorem C5_exceptions_caught_witness :
    (process_whatsapp_message translateFailEnv (textMessagePayload "hello")).1
        = .errorResult ("Error processing WhatsApp message: " ++ "boom") 500
    ∧ (process_whatsapp_message translateFailEnv (textMessagePayload "hello")).2
        = [.sendMsg (Payload.text (Json.str "15551234567")
              "Processing your request. Please wait..."),
           .translate "hello"]
          ++ [.sendMsg (Payload.text (Json.str "15551234567")
              "Sorry, there was an error processing your request. Please try again later.")] := by
  have h := C5_exceptions_caught translateFailEnv (textMessagePayload "hello")
    (.oracle "boom")
    [.sendMsg (Payload.text (Json.str "15551234567")
        "Processing your request. Please wait..."),
     .translate "hello"]
    rfl
  exact ⟨h.1, h.2.1 (Json.str "15551234567") rfl⟩

/-- C2 counterexample: on a concrete non-"hi" text payload the pipeline
makes exactly one translation call, but a `send_message` call (the
acknowledgment, whatsapp_utils.py line 311) occurs before it, so the
claim's "that call happens before any outbound send_message call" is
false. -/
theorem C2_counterexample :
    countTranslates
        (process_whatsapp_message okEnv (textMessagePayload "hello")).2 = 1
    ∧ noSendBeforeTranslate
        (process_whatsapp_message okEnv (textMessagePayload "hello")).2 = false :=
  ⟨rfl, rfl⟩

/-- C2 (amended): for every inbound text message whose body is not "hi"
(after case-insensitive trim) on a payload matching the inbound data
model, `process_whatsapp_message` makes exactly one call to the
translation adapter; the unconditional acknowledgment send precedes that
call, and the call happens before every other outbound send: the trace is
exactly the acknowledgment send, then the translate call, then a
remainder containing no further translate calls. -/
theorem C2_one_translate_after_ack (env : Env) (body wa nm msg : Json)
    (b : String)
    (hwa : extract_wa_id body = .ok wa)
    (hname : extract_profile_name body = .ok nm)
    (hmsg : extract_first_message body = .ok msg)
    (htype : msg.get "type" = .ok (Json.str "text"))
    (hbody : message_text_body msg = .ok b)
    (hnothi : ¬ pyLower (pyStrip b) = "hi") :
    ∃ rest, (process_whatsapp_message env body).2
        = .sendMsg (Payload.text wa "Processing your request. Please wait...")
          :: .translate b :: rest
      ∧ countTranslates rest = 0 := by
  unfold process_whatsapp_message dispatchTry
  simp only [hwa, hname, hmsg, htype, hbody, Json.eqStr, hnothi]
  cases htr : env.translate b with
  | error e =>
      simp only [htr, hwa]
      refine ⟨[.sendMsg (Payload.text wa
        "Sorry, there was an error processing your request. Please try again later.")],
        by simp [get_text_message_input], rfl⟩
  | ok translated =>
      cases hg : env.genPdf translated with
      | error e =>
          simp only [htr, hg, hwa]
          refine ⟨[.sendMsg (Payload.text wa
            "Sorry, there was an error processing your request. Please try again later.")],
            by simp [get_text_message_input], rfl⟩
      | ok pdf =>
          cases hu : env.uploadMedia pdf with
          | error e =>
              simp only [htr, hg, hu, hwa]
              refine ⟨[.uploadMedia pdf, .sendMsg (Payload.text wa
                "Sorry, there was an error processing your request. Please try again later.")],
                by simp [get_text_message_input], rfl⟩
          | ok mediaId =>
              simp only [htr, hg, hu, hwa]
              refine ⟨[.uploadMedia pdf, .sendMsg (get_document_message_input wa
                mediaId (some "Your medical report is ready."))],
                by simp [get_text_message_input], rfl⟩

/-! ## Lemmas about the formatter passes -/

/-- Unfolding `removeBrackets` at an opening bracket with a reachable
close: the whole span is removed. -/
theorem removeBrackets_open_some {rest rest2 : List Char}
    (hf : findBracketClose rest = some rest2) :
    removeBrackets ('\u3010' :: rest) = removeBrackets rest2 := by
  simp only [removeBrackets]
  rw [if_pos trivial]
  split
  · rename_i r2 h2
    rw [hf] at h2
    injection h2 with h2
    rw [h2]
  · rename_i h2
    rw [hf] at h2
    cases h2

/-- Unfolding `removeBrackets` at an opening bracket with no reachable
close: the bracket is emitted and scanning advances one character. -/
theorem removeBrackets_open_none {rest : List Char}
    (hf : findBracketClose rest = none) :
    removeBrackets ('\u3010' :: rest) = '\u3010' :: removeBrackets rest := by
  simp only [removeBrackets]
  rw [if_pos trivial]
  split
  · rename_i r2 h2
    rw [hf] at h2
    cases h2
  · rfl

/-- Unfolding `removeBrackets` at any other character. -/
theorem removeBrackets_cons_ne {c : Char} {rest : List Char}
    (hc : c ≠ '\u3010') :
    removeBrackets (c :: rest) = c :: removeBrackets rest := by
  simp only [removeBrackets]
  rw [if_neg hc]

/-- Unfolding `boldToSingle` at a double asterisk whose closing pair is
found: the match is rewritten and scanning continues after it. -/
theorem boldToSingle_star_some {rest g rest2 : List Char}
    (hf : findDoubleStar rest = some (g, rest2)) :
    boldToSingle ('*' :: '*' :: rest) = '*' :: (g ++ '*' :: boldToSingle rest2) := by
  simp only [boldToSingle]
  rw [if_pos ⟨trivial, trivial⟩]
  split
  · rename_i g2 r2 h2
    rw [hf] at h2
    injection h2 with h2
    rw [Prod.mk.injEq] at h2
    rw [h2.1, h2.2]
  · rename_i h2
    rw [hf] at h2
    cases h2


/-- A list without `【` is unchanged by the bracket-removal pass. -/
theorem removeBrackets_of_not_mem :
    ∀ l : List Char, '【' ∉ l → removeBrackets l = l := by
  intro l
  induction l with
  | nil => intro _; simp [removeBrackets]
  | cons c rest ih =>
      intro h
      have hc : c ≠ '【' := fun hc => h (hc ▸ List.mem_cons_self c rest)
      have hrest : '【' ∉ rest := fun hr => h (List.mem_cons_of_mem c hr)
      simp [removeBrackets, hc, ih hrest]

/-- A list without adjacent asterisks is unchanged by the double-asterisk
pass. -/
theorem boldToSingle_of_no_double_star :
    ∀ l : List Char, hasDoubleStar l = false → boldToSingle l = l := by
  intro l
  induction l with
  | nil => intro _; simp [boldToSingle]
  | cons a tail ih =>
      intro h
      match tail with
      | [] => simp [boldToSingle]
      | b :: rest =>
          simp only [hasDoubleStar, Bool.or_eq_false_iff, Bool.and_eq_false_iff] at h
          have hab : ¬(a = '*' ∧ b = '*') := by
            intro ⟨h1, h2⟩
            rcases h.1 with h3 | h3 <;> simp [h1, h2] at h3
          have htail : hasDoubleStar (b :: rest) = false := h.2
          simp [boldToSingle, hab, ih (by simpa [hasDoubleStar] using htail)]

/-- If `dropWhile` keeps a cons intact, the head fails the predicate. -/
theorem dropWhile_cons_self {p : Char → Bool} {c : Char} {r : List Char}
    (h : List.dropWhile p (c :: r) = c :: r) : p c = false := by
  by_cases hp : p c = true
  · exfalso
    rw [List.dropWhile_cons, if_pos hp] at h
    have hle := (List.dropWhile_sublist (l := r) p).length_le
    rw [h] at hle
    simp at hle
  · simpa using hp

/-- `dropWhile` is idempotent. -/
theorem dropWhile_dropWhile (p : Char → Bool) :
    ∀ l : List Char, List.dropWhile p (List.dropWhile p l) = List.dropWhile p l := by
  intro l
  induction l with
  | nil => rfl
  | cons c rest ih =>
      rw [List.dropWhile_cons]
      by_cases hp : p c = true
      · rw [if_pos hp]; exact ih
      · rw [if_neg hp, List.dropWhile_cons,
          if_neg (by simpa using hp)]

/-- A fixed point of `dropWhile` restricts to its prefixes. -/
theorem dropWhile_of_append {p : Char → Bool} {u v t : List Char}
    (hu : List.dropWhile p u = u) (heq : u = v ++ t) :
    List.dropWhile p v = v := by
  match v with
  | [] => rfl
  | c :: v2 =>
      have : List.dropWhile p (c :: (v2 ++ t)) = c :: (v2 ++ t) := by
        rw [← List.cons_append, ← heq]; exact hu
      have hc := dropWhile_cons_self this
      rw [List.dropWhile_cons, if_neg (by simp [hc])]

/-- The strip result is a fixed point of the leading `dropWhile`. -/
theorem dropWhile_pyStripList (l : List Char) :
    List.dropWhile pyIsSpace (pyStripList l) = pyStripList l := by
  unfold pyStripList
  set m := List.dropWhile pyIsSpace l with hm
  have hu : List.dropWhile pyIsSpace m = m := dropWhile_dropWhile pyIsSpace l
  have hsplit : m = (List.dropWhile pyIsSpace m.reverse).reverse
      ++ (List.takeWhile pyIsSpace m.reverse).reverse := by
    have := List.takeWhile_append_dropWhile (p := pyIsSpace) (l := m.reverse)
    calc m = m.reverse.reverse := (List.reverse_reverse m).symm
    _ = (List.takeWhile pyIsSpace m.reverse ++ List.dropWhile pyIsSpace m.reverse).reverse := by
          rw [this]
    _ = _ := by rw [List.reverse_append]
  exact dropWhile_of_append hu hsplit

/-- Stripping is idempotent (`x.strip().strip() == x.strip()`). -/
theorem pyStripList_idem (l : List Char) :
    pyStripList (pyStripList l) = pyStripList l := by
  have h1 : List.dropWhile pyIsSpace (pyStripList l) = pyStripList l :=
    dropWhile_pyStripList l
  show ((List.dropWhile pyIsSpace (pyStripList l)).reverse.dropWhile pyIsSpace).reverse
      = pyStripList l
  rw [h1]
  have h2 : (pyStripList l).reverse
      = List.dropWhile pyIsSpace ((List.dropWhile pyIsSpace l).reverse) := by
    unfold pyStripList
    rw [List.reverse_reverse]
  rw [h2, dropWhile_dropWhile, ← h2]
  exact List.reverse_reverse _

/-- Dropping the head cannot create an adjacent asterisk pair. -/
theorem hasDoubleStar_tail {a : Char} {l : List Char}
    (h : hasDoubleStar (a :: l) = false) : hasDoubleStar l = false := by
  match l with
  | [] => rfl
  | b :: rest =>
      simp only [hasDoubleStar, Bool.or_eq_false_iff] at h
      exact h.2

/-- No adjacent asterisk pair in an append implies none in the right part. -/
theorem hasDoubleStar_append_right {s u : List Char}
    (h : hasDoubleStar (s ++ u) = false) : hasDoubleStar u = false := by
  induction s with
  | nil => simpa using h
  | cons a s2 ih => exact ih (hasDoubleStar_tail (by simpa using h))

/-- No adjacent asterisk pair in an append implies none in the left part. -/
theorem hasDoubleStar_append_left :
    ∀ {u : List Char} {t : List Char},
      hasDoubleStar (u ++ t) = false → hasDoubleStar u = false := by
  intro u
  induction u with
  | nil => intro t _; rfl
  | cons a u2 ih =>
      intro t h
      match u2 with
      | [] => rfl
      | b :: r =>
          simp only [List.cons_append, hasDoubleStar, Bool.or_eq_false_iff] at h ⊢
          exact ⟨h.1, ih (by simpa using h.2)⟩

/-- Stripping cannot create an adjacent asterisk pair. -/
theorem hasDoubleStar_pyStripList {l : List Char}
    (h : hasDoubleStar l = false) : hasDoubleStar (pyStripList l) = false := by
  have hsplit : l = List.takeWhile pyIsSpace l
      ++ (pyStripList l ++ (List.takeWhile pyIsSpace (List.dropWhile pyIsSpace l).reverse).reverse) := by
    unfold pyStripList
    set m := List.dropWhile pyIsSpace l with hm
    calc l = List.takeWhile pyIsSpace l ++ m :=
          (List.takeWhile_append_dropWhile (p := pyIsSpace) (l := l)).symm
    _ = List.takeWhile pyIsSpace l
          ++ ((List.dropWhile pyIsSpace m.reverse).reverse
              ++ (List.takeWhile pyIsSpace m.reverse).reverse) := by
          congr 1
          calc m = m.reverse.reverse := (List.reverse_reverse m).symm
          _ = (List.takeWhile pyIsSpace m.reverse
                ++ List.dropWhile pyIsSpace m.reverse).reverse := by
                rw [List.takeWhile_append_dropWhile]
          _ = _ := by rw [List.reverse_append]
  rw [hsplit] at h
  exact hasDoubleStar_append_left (hasDoubleStar_append_right h)

/-- Membership in the strip result implies membership in the input. -/
theorem mem_of_mem_pyStripList {c : Char} {l : List Char}
    (h : c ∈ pyStripList l) : c ∈ l := by
  unfold pyStripList at h
  rw [List.mem_reverse] at h
  have h2 := (List.dropWhile_sublist pyIsSpace).subset h
  rw [List.mem_reverse] at h2
  exact (List.dropWhile_sublist pyIsSpace).subset h2

/-- C4 counterexample: the input `"*【】*【】*a*【】*【】*"` contains no
double-asterisk sequence, yet the formatter is not idempotent on it:
bracket removal glues single asterisks into `"***a***"`, one formatting
pass yields `"**a**"`, and a second pass yields `"*a*"`. -/
theorem C4_counterexample :
    hasDoubleStar ("*【】*【】*a*【】*【】*").toList = false
    ∧ process_text_for_whatsapp (process_text_for_whatsapp "*【】*【】*a*【】*【】*")
        ≠ process_text_for_whatsapp "*【】*【】*a*【】*【】*" := by
  constructor
  · decide
  · simp [process_text_for_whatsapp, removeBrackets, findBracketClose,
      boldToSingle, findDoubleStar, pyStripList, pyIsSpace]

/-- C4 (amended): the formatter is idempotent on inputs that contain no
double-asterisk sequence and no `【` character (so that no annotation
removal occurs that could glue asterisks together):
`process_text_for_whatsapp (process_text_for_whatsapp x)
  = process_text_for_whatsapp x`. -/
theorem C4_idempotent_no_double_star (x : String)
    (hstar : hasDoubleStar x.toList = false)
    (hbr : '【' ∉ x.toList) :
    process_text_for_whatsapp (process_text_for_whatsapp x)
      = process_text_for_whatsapp x := by
  unfold process_text_for_whatsapp
  rw [removeBrackets_of_not_mem x.toList hbr]
  rw [boldToSingle_of_no_double_star _ (hasDoubleStar_pyStripList hstar)]
  have htl : (String.mk (pyStripList x.toList)).toList = pyStripList x.toList := rfl
  rw [htl]
  rw [removeBrackets_of_not_mem _ (fun hm => hbr (mem_of_mem_pyStripList hm))]
  rw [pyStripList_idem]
  rw [boldToSingle_of_no_double_star _ (hasDoubleStar_pyStripList hstar)]

/-- C4 witness: idempotence on a concrete annotation-free input with
single asterisks and surrounding whitespace. -/
theorem C4_idempotent_no_double_star_witness :
    process_text_for_whatsapp (process_text_for_whatsapp "  *a* b 】 ")
      = process_text_for_whatsapp "  *a* b 】 " :=
  C4_idempotent_no_double_star "  *a* b 】 " (by decide) (by decide)

/-- If no closing bracket is reachable in `l`, none is reachable after
bracket removal either (removed spans never contain the blocking newline). -/
theorem findBracketClose_none_removeBrackets :
    ∀ l : List Char, findBracketClose l = none →
      findBracketClose (removeBrackets l) = none := by
  intro l
  induction l with
  | nil => intro _; simp [removeBrackets, findBracketClose]
  | cons c rest ih =>
      intro h
      by_cases hcl : c = '】'
      · rw [hcl] at h
        simp [findBracketClose] at h
      · by_cases hnl : c = '\n'
        · have h1 : removeBrackets (c :: rest) = c :: removeBrackets rest :=
            removeBrackets_cons_ne (by rw [hnl]; decide)
          rw [h1, hnl]
          simp [findBracketClose]
        · have hrest : findBracketClose rest = none := by
            simpa [findBracketClose, hcl, hnl] using h
          by_cases hop : c = '【'
          · rw [hop, removeBrackets_open_none hrest]
            simpa [findBracketClose] using ih hrest
          · rw [removeBrackets_cons_ne hop]
            simpa [findBracketClose, hcl, hnl] using ih hrest

/-- After the bracket-removal pass no annotation match remains: every
span the pattern `\【.*?\】` can match has been removed. -/
theorem hasBracketSpan_removeBrackets (l : List Char) :
    hasBracketSpan (removeBrackets l) = false := by
  have key : ∀ n (l : List Char), l.length ≤ n →
      hasBracketSpan (removeBrackets l) = false := by
    intro n
    induction n with
    | zero =>
        intro l hl
        match l with
        | [] => simp [removeBrackets, hasBracketSpan]
        | _ :: _ => simp at hl
    | succ n ih =>
        intro l hl
        match l with
        | [] => simp [removeBrackets, hasBracketSpan]
        | c :: rest =>
            have hlrest : rest.length ≤ n := by
              simp only [List.length_cons] at hl
              omega
            by_cases hop : c = '【'
            · subst hop
              cases hf : findBracketClose rest with
              | some rest2 =>
                  have hlen := findBracketClose_length rest rest2 hf
                  rw [removeBrackets_open_some hf]
                  exact ih rest2 (by omega)
              | none =>
                  rw [removeBrackets_open_none hf]
                  simp [hasBracketSpan,
                    findBracketClose_none_removeBrackets rest hf, ih rest hlrest]
            · rw [removeBrackets_cons_ne hop]
              simp [hasBracketSpan, hop, ih rest hlrest]
  exact key l.length l le_rfl

/-- Lazy closing-delimiter search: when the group `g` contains no adjacent
asterisk pair (even glued to the closing delimiter) and no newline, the
first double asterisk after `g` is the closing delimiter. -/
theorem findDoubleStar_append :
    ∀ g rest : List Char, hasDoubleStar (g ++ ['*']) = false → '\n' ∉ g →
      findDoubleStar (g ++ '*' :: '*' :: rest) = some (g, rest) := by
  intro g
  induction g with
  | nil => intro rest _ _; simp [findDoubleStar]
  | cons c g2 ih =>
      intro rest hds hnl
      have hn : c ≠ '\n' := by
        intro hc
        exact hnl (by simp [hc])
      match g2 with
      | [] =>
          have hc : c ≠ '*' := by
            intro hc
            rw [hc] at hds
            simp [hasDoubleStar] at hds
          simp [findDoubleStar, hc, hn]
      | d :: g3 =>
          have hpair : ¬(c = '*' ∧ d = '*') := by
            rintro ⟨h1, h2⟩
            rw [h1, h2] at hds
            simp [hasDoubleStar] at hds
          have hds2 : hasDoubleStar ((d :: g3) ++ ['*']) = false :=
            hasDoubleStar_tail (by simpa using hds)
          have hnl2 : '\n' ∉ d :: g3 := fun h => hnl (List.mem_cons_of_mem _ h)
          have ih2 := ih rest hds2 hnl2
          simp only [List.cons_append] at ih2 ⊢
          simp only [findDoubleStar, if_neg hpair, if_neg hn, ih2]

/-- The double-asterisk pass rewrites the shortest `**group**` to
`*group*` and continues after it (first-match semantics; single literal
asterisks inside the group are kept unescaped). -/
theorem boldToSingle_conv (g rest : List Char)
    (hds : hasDoubleStar (g ++ ['*']) = false) (hnl : '\n' ∉ g) :
    boldToSingle ('*' :: '*' :: (g ++ '*' :: '*' :: rest))
      = '*' :: (g ++ '*' :: boldToSingle rest) := by
  have hf := findDoubleStar_append g rest hds hnl
  rw [boldToSingle_star_some hf]

/-- C9 counterexample: the annotation `【a\nb】` (bracket-wrapped text
containing a newline) is not removed — the formatter returns the input
unchanged, still containing the bracket-delimited annotation — because
`.` in the pattern `\【.*?\】` does not match a newline. -/
theorem C9_counterexample :
    process_text_for_whatsapp "【a\nb】" = "【a\nb】"
    ∧ '【' ∈ ("【a\nb】").toList := by
  constructor
  · simp [process_text_for_whatsapp, removeBrackets, findBracketClose,
      boldToSingle, findDoubleStar, pyStripList, pyIsSpace]
  · decide

/-- C9 (amended): the first formatter pass removes every annotation the
pattern `\【.*?\】` can match — after it, no `【` with a `】` reachable
without crossing a newline remains (annotations whose text spans a
newline are kept); and the second pass converts double-asterisk emphasis
to single-asterisk bold with first-match semantics and no escaping: the
shortest newline-free group between a `**` pair is rewritten to
`*group*`, literal single asterisks inside the group surviving
untouched. -/
theorem C9_formatter_passes :
    (∀ s : String, hasBracketSpan (removeBrackets s.toList) = false)
    ∧ (∀ g rest : List Char, hasDoubleStar (g ++ ['*']) = false → '\n' ∉ g →
        boldToSingle ('*' :: '*' :: (g ++ '*' :: '*' :: rest))
          = '*' :: (g ++ '*' :: boldToSingle rest)) :=
  ⟨fun s => hasBracketSpan_removeBrackets s.toList,
   fun g rest h1 h2 => boldToSingle_conv g rest h1 h2⟩

/-- C9 witness: both clauses at concrete inputs (an input with nested and
newline-blocked annotations; a one-character emphasis group). -/
theorem C9_formatter_passes_witness :
    hasBracketSpan (removeBrackets ("x【a【b】y\n【z").toList) = false
    ∧ boldToSingle ('*' :: '*' :: (['b'] ++ '*' :: '*' :: ['c']))
        = '*' :: (['b'] ++ '*' :: boldToSingle ['c']) :=
  ⟨C9_formatter_passes.1 "x【a【b】y\n【z",
   C9_formatter_passes.2 ['b'] ['c'] (by decide) (by decide)⟩

/-! ## Lemmas about the validator -/

/-- `.bind` on `Except` succeeds exactly through a successful first step. -/
theorem except_bind_ok {α β : Type} {x : Except PyErr α} {f : α → Except PyErr β}
    {v : β} : x.bind f = .ok v ↔ ∃ w, x = .ok w ∧ f w = .ok v := by
  cases x <;> simp [Except.bind]

/-- Successful `.get` forces a dict receiver and returns the total
navigation value. -/
theorem get_ok_elim {j : Json} {k : String} {v : Json} (h : j.get k = .ok v) :
    (∃ kvs, j = Json.obj kvs) ∧ jattr j k = v := by
  cases j <;> simp [Json.get] at h
  exact ⟨⟨_, rfl⟩, h⟩

/-- `.get` on a dict returns the total navigation value. -/
theorem get_ok_intro (kvs : List (String × Json)) (k : String) :
    (Json.obj kvs).get k = .ok (jattr (Json.obj kvs) k) := rfl

/-- Successful subscript agrees with the total navigation value. -/
theorem subStr_ok_elim {j : Json} {k : String} {v : Json}
    (h : Json.subStr j k = .ok v) : jattr j k = v := by
  cases j <;> simp [Json.subStr] at h
  rename_i kvs
  cases hlk : lookupKey kvs k with
  | none => rw [hlk] at h; simp at h
  | some w => rw [hlk] at h; simp at h; simp [jattr, hlk, h]

/-- A truthy `.get` value makes the same-key subscript succeed with it. -/
theorem subStr_ok_intro {kvs : List (String × Json)} {k : String}
    (ht : (jattr (Json.obj kvs) k).truthy = true) :
    Json.subStr (Json.obj kvs) k = .ok (jattr (Json.obj kvs) k) := by
  cases hlk : lookupKey kvs k with
  | none => simp [jattr, hlk, Json.truthy] at ht
  | some w => simp [Json.subStr, jattr, hlk]

/-- Successful `[0]` agrees with the total navigation value. -/
theorem sub0_ok_elim {j v : Json} (h : Json.sub0 j = .ok v) : jidx0 j = v := by
  cases j with
  | arr xs => cases xs <;> simp [Json.sub0] at h <;> simp [jidx0, h]
  | str s =>
      cases hs : s.data with
      | nil => simp [Json.sub0, String.toList, hs] at h
      | cons c cs =>
          simp [Json.sub0, String.toList, hs] at h
          simp [jidx0, String.toList, hs, h]
  | _ => simp [Json.sub0] at h

/-- A truthy `[0]` value makes the subscript succeed with it. -/
theorem sub0_ok_intro {j : Json} (ht : (jidx0 j).truthy = true) :
    Json.sub0 j = .ok (jidx0 j) := by
  cases j with
  | arr xs => cases xs <;> simp [jidx0, Json.truthy] at ht ⊢ <;> simp [Json.sub0]
  | str s =>
      cases hs : s.data with
      | nil => simp [jidx0, String.toList, hs, Json.truthy] at ht
      | cons c cs => simp [Json.sub0, jidx0, String.toList, hs]
  | _ => simp [jidx0, Json.truthy] at ht

/-- A truthy `.get`-navigated field forces a nonempty dict receiver whose
lookup yields the field. -/
theorem jattr_truthy_elim {j : Json} {k : String}
    (ht : (jattr j k).truthy = true) :
    ∃ kvs, j = Json.obj kvs ∧ lookupKey kvs k = some (jattr j k)
      ∧ j.truthy = true := by
  cases j <;> simp [jattr, Json.truthy] at ht ⊢
  rename_i kvs
  cases hlk : lookupKey kvs k with
  | none => rw [hlk] at ht; simp [Json.truthy] at ht
  | some w =>
      refine ⟨by simp [hlk], ?_⟩
      cases kvs with
      | nil => simp [lookupKey] at hlk
      | cons p rest => simp

/-- Truthiness of a `.get`-navigated field makes the `.get` succeed. -/
theorem get_ok_intro2 {j : Json} {k : String}
    (ht : (jattr j k).truthy = true) : j.get k = .ok (jattr j k) := by
  obtain ⟨kvs, rfl, -, -⟩ := jattr_truthy_elim ht
  rfl

/-- Truthiness of a `.get`-navigated field makes the same-key subscript
succeed. -/
theorem subStr_ok_intro2 {j : Json} {k : String}
    (ht : (jattr j k).truthy = true) : Json.subStr j k = .ok (jattr j k) := by
  obtain ⟨kvs, rfl, -, -⟩ := jattr_truthy_elim ht
  exact subStr_ok_intro ht

/-- Soundness half: a `True` answer forces the truthy navigation chain. -/
theorem is_valid_sound (body : Json)
    (h : is_valid_whatsapp_message body = .ok true) :
    validShape body = true := by
  unfold is_valid_whatsapp_message at h
  cases h1 : body.get "object" with
  | error e => rw [h1] at h; simp at h
  | ok objectField =>
  rw [h1] at h
  simp only [] at h
  cases ht1 : objectField.truthy with
  | false => rw [ht1] at h; simp at h
  | true =>
  rw [ht1] at h
  simp at h
  cases h2 : body.get "entry" with
  | error e => rw [h2] at h; simp at h
  | ok entryField =>
  rw [h2] at h
  simp only [] at h
  cases ht2 : entryField.truthy with
  | false => rw [ht2] at h; simp at h
  | true =>
  rw [ht2] at h
  simp at h
  cases h3 : (body.subStr "entry").bind Json.sub0 with
  | error e => rw [h3] at h; simp at h
  | ok entry0 =>
  rw [h3] at h
  simp only [] at h
  cases h4 : entry0.get "changes" with
  | error e => rw [h4] at h; simp at h
  | ok changesField =>
  rw [h4] at h
  simp only [] at h
  cases ht3 : changesField.truthy with
  | false => rw [ht3] at h; simp at h
  | true =>
  rw [ht3] at h
  simp at h
  cases h5 : (entry0.subStr "changes").bind Json.sub0 with
  | error e => rw [h5] at h; simp at h
  | ok changes0 =>
  rw [h5] at h
  simp only [] at h
  cases h6 : changes0.get "value" with
  | error e => rw [h6] at h; simp at h
  | ok valueField =>
  rw [h6] at h
  simp only [] at h
  cases ht4 : valueField.truthy with
  | false => rw [ht4] at h; simp at h
  | true =>
  rw [ht4] at h
  simp at h
  cases h7 : (changes0.subStr "value").bind (fun v => v.get "messages") with
  | error e => rw [h7] at h; simp at h
  | ok messagesField =>
  rw [h7] at h
  simp only [] at h
  cases ht5 : messagesField.truthy with
  | false => rw [ht5] at h; simp at h
  | true =>
  rw [ht5] at h
  simp at h
  cases h8 : (changes0.subStr "value").bind
      (fun v => (v.subStr "messages").bind Json.sub0) with
  | error e => rw [h8] at h; simp at h
  | ok message0 =>
  rw [h8] at h
  simp only [] at h
  have htm : message0.truthy = true := by simpa using h
  -- relate the Except navigation to the total navigation
  obtain ⟨-, hobjE⟩ := get_ok_elim h1
  obtain ⟨-, hentE⟩ := get_ok_elim h2
  obtain ⟨w1, hw1, hw1b⟩ := except_bind_ok.mp h3
  have hw1E : jidx0 entryField = entry0 := by
    rw [← (show w1 = entryField from by rw [← subStr_ok_elim hw1, hentE])]
    exact sub0_ok_elim hw1b
  obtain ⟨-, hchE⟩ := get_ok_elim h4
  obtain ⟨w2, hw2, hw2b⟩ := except_bind_ok.mp h5
  have hw2E : jidx0 changesField = changes0 := by
    rw [← (show w2 = changesField from by rw [← subStr_ok_elim hw2, hchE])]
    exact sub0_ok_elim hw2b
  obtain ⟨-, hvalE⟩ := get_ok_elim h6
  obtain ⟨w3, hw3, hw3b⟩ := except_bind_ok.mp h7
  have hmsgE : jattr valueField "messages" = messagesField := by
    rw [← (show w3 = valueField from by rw [← subStr_ok_elim hw3, hvalE])]
    exact (get_ok_elim hw3b).2
  obtain ⟨w4, hw4, hw4b⟩ := except_bind_ok.mp h8
  obtain ⟨w5, hw5, hw5b⟩ := except_bind_ok.mp hw4b
  have hm0E : jidx0 messagesField = message0 := by
    have hw4E : w4 = valueField := by rw [← subStr_ok_elim hw4, hvalE]
    have hw5E : w5 = messagesField := by
      rw [← subStr_ok_elim hw5, hw4E, hmsgE]
    rw [← hw5E]
    exact sub0_ok_elim hw5b
  simp only [validShape]
  rw [hobjE, hentE, hw1E, hchE, hw2E, hvalE, hmsgE, hm0E,
    ht1, ht2, ht3, ht4, ht5, htm]
  simp

/-- Completeness half: the truthy navigation chain forces a `True`
answer. -/
theorem is_valid_complete (body : Json) (h : validShape body = true) :
    is_valid_whatsapp_message body = .ok true := by
  simp only [validShape, Bool.and_eq_true] at h
  obtain ⟨⟨⟨⟨⟨ht1, ht2⟩, ht3⟩, ht4⟩, ht5⟩, ht6⟩ := h
  have g1 := get_ok_intro2 ht1
  have g2 := get_ok_intro2 ht2
  have g3 := subStr_ok_intro2 ht2
  obtain ⟨kvsE, hE, -, htE⟩ := jattr_truthy_elim ht3
  have g4 := sub0_ok_intro htE
  have g5 := get_ok_intro2 ht3
  have g6 := subStr_ok_intro2 ht3
  obtain ⟨kvsC, hC, -, htC⟩ := jattr_truthy_elim ht4
  have g7 := sub0_ok_intro htC
  have g8 := get_ok_intro2 ht4
  have g9 := subStr_ok_intro2 ht4
  have g10 := get_ok_intro2 ht5
  have g11 := subStr_ok_intro2 ht5
  have g12 := sub0_ok_intro ht6
  unfold is_valid_whatsapp_message
  simp only [g1, g2, g3, g4, g5, g6, g7, g8, g9, g10, g11, g12, Except.bind,
    ht1, ht2, ht3, ht4, ht5, ht6, Bool.not_true]
  simp

/-- C7 counterexample: the validator does not return a boolean for every
parsed JSON body — on `\x7b"object": "whatsapp", "entry": 5\x7d` the
truthy non-subscriptable `entry` makes `body["entry"][0]` raise a
TypeError, which propagates out of `is_valid_whatsapp_message`. -/
theorem C7_counterexample :
    is_valid_whatsapp_message (Json.obj [("object", Json.str "whatsapp"),
      ("entry", Json.num 5)]) = Except.error PyErr.typeError := rfl

/-- C7 (amended): `is_valid_whatsapp_message` never mutates its input (it
is a pure function of the payload), and it answers `True` exactly when the
payload has a truthy top-level `object` field and a well-formed single
message entry: navigating entry → [0] → changes → [0] → value → messages
→ [0] (reading failed steps as `None`) yields truthy values at every
checked station (`validShape`). On other payloads it returns `False` or —
when a navigation step hits a value of the wrong type — raises instead of
returning a boolean. -/
theorem C7_validator_exact_shape (body : Json) :
    is_valid_whatsapp_message body = .ok true ↔ validShape body = true :=
  ⟨is_valid_sound body, is_valid_complete body⟩

/-- C2 witness: the amended statement at a concrete payload with body
`"hello"` and an all-succeeding environment. -/
theorem C2_one_translate_after_ack_witness :
    ∃ rest, (process_whatsapp_message okEnv (textMessagePayload "hello")).2
        = .sendMsg (Payload.text (Json.str "15551234567")
            "Processing your request. Please wait...")
          :: .translate "hello" :: rest
      ∧ countTranslates rest = 0 :=
  C2_one_translate_after_ack okEnv (textMessagePayload "hello")
    (Json.str "15551234567") (Json.str "Test User")
    (Json.obj [("type", Json.str "text"),
      ("text", Json.obj [("body", Json.str "hello")])])
    "hello" rfl rfl rfl rfl rfl (by decide)
